import Mathlib

/-!
Verification of the OneDrive-Custom-Backup-Tool core against its
natural-language specification.

The embedding models the transactional relocation core:
`src/core/backup.py` (BackupManager), `src/core/rollback.py`
(RollbackManager) and the validation helpers of `src/utils/paths.py`.

A filesystem is an association list from absolute canonical paths
(component lists) to entries; a directory junction (reparse point) is an
entry carrying its target path.  OS-level command execution
(PowerShell `Move-Item`, `robocopy`, `New-Item`, `rmdir`, `mklink`) is an
external collaborator per the spec; the outcome of each command is
supplied by an `Oracle`, and a command that succeeds has its documented
effect while a command that fails leaves the filesystem unchanged.
Permission and disk-space queries are supplied by an `Env`.
-/

namespace OneDriveBackupTool

/-- A filesystem path: the list of components below the root. -/
abbrev FPath := List String

/-- A filesystem entry: a directory, a regular file, or a directory
junction (reparse point) whose stored target is `tgt`. -/
inductive Entry where
  | dir : Entry
  | file : Entry
  | junction (tgt : FPath) : Entry
deriving DecidableEq, Repr

/-- The filesystem: an association list from paths to entries. -/
abbrev FS := List (FPath × Entry)

namespace FS

/-- Look up the entry stored at a path (first match wins). -/
def lookup : FS → FPath → Option Entry
  | [], _ => none
  | (q, e) :: rest, p => if q = p then some e else lookup rest p

/-- Remove every entry stored exactly at `p` (not its descendants). -/
def erase : FS → FPath → FS
  | [], _ => []
  | (q, e) :: rest, p => if q = p then erase rest p else (q, e) :: erase rest p

/-- Store entry `e` at path `p`, replacing any previous entry there. -/
def set (fs : FS) (p : FPath) (e : Entry) : FS :=
  (p, e) :: erase fs p

end FS

/-- Dirname, as `pathlib.Path.parent`. -/
def parentDir (p : FPath) : FPath := p.dropLast

/-- Final component, as `pathlib.Path.name`. -/
def basename (p : FPath) : String := (p.getLast?).getD ""

/-- Existence check, as `pathlib.Path.exists()`: follows a final
junction, so a junction whose target is gone does not "exist".  The
filesystem root always exists. -/
def pathExists (fs : FS) (p : FPath) : Bool :=
  match p with
  | [] => true
  | _ =>
    match FS.lookup fs p with
    | some (Entry.junction t) => (FS.lookup fs t).isSome
    | some _ => true
    | none => false

/-- Directory check, as `pathlib.Path.is_dir()`: follows a final
junction to its target. -/
def isDir (fs : FS) (p : FPath) : Bool :=
  match p with
  | [] => true
  | _ =>
    match FS.lookup fs p with
    | some Entry.dir => true
    | some (Entry.junction t) =>
      match FS.lookup fs t with
      | some Entry.dir => true
      | _ => false
    | _ => false

/-- Regular-file check, as `pathlib.Path.is_file()`. -/
def isFile (fs : FS) (p : FPath) : Bool :=
  match FS.lookup fs p with
  | some Entry.file => true
  | some (Entry.junction t) =>
    match FS.lookup fs t with
    | some Entry.file => true
    | _ => false
  | _ => false

/-- Reparse-point check on the entry itself (the consumed PathInspector
interface of spec section 6: link-type detection does not follow the link). -/
def isLinkEntry (fs : FS) (p : FPath) : Bool :=
  match FS.lookup fs p with
  | some (Entry.junction _) => true
  | _ => false

/-- Canonicalization, as `pathlib.Path.resolve()`: walk the components
from the root, replacing any junction met on the way by its (already
canonical) stored target. -/
def resolve (fs : FS) (p : FPath) : FPath :=
  p.foldl (fun acc c =>
    let q := acc ++ [c]
    match FS.lookup fs q with
    | some (Entry.junction t) => t
    | _ => q) []

/-- Length of the rendered path string: component lengths plus one
separator between consecutive components (`len(str(path))`). -/
def pathLen (p : FPath) : Nat := (p.map String.length).sum + p.length - 1

/-- Move the whole tree rooted at `src` to `dst` (effect of a successful
`Move-Item`): every entry whose path extends `src` is re-rooted at `dst`. -/
def movePaths : FS → FPath → FPath → FS
  | [], _, _ => []
  | (k, e) :: rest, src, dst =>
    (if src.isPrefixOf k then (dst ++ k.drop src.length, e) else (k, e))
      :: movePaths rest src dst

/-- The entries of the tree rooted at `src`, re-rooted at `dst`. -/
def copyTree : FS → FPath → FPath → FS
  | [], _, _ => []
  | (k, e) :: rest, src, dst =>
    if src.isPrefixOf k then (dst ++ k.drop src.length, e) :: copyTree rest src dst
    else copyTree rest src dst

/-- Copy the whole tree rooted at `src` to `dst`, keeping the source
(effect of a `robocopy` that copied but did not delete). -/
def copyPaths (fs : FS) (src dst : FPath) : FS :=
  copyTree fs src dst ++ fs

/-- Delete the whole tree rooted at `p` (effect of a successful
`Remove-Item -Recurse`). -/
def removeTree : FS → FPath → FS
  | [], _ => []
  | (k, e) :: rest, p => if p.isPrefixOf k then removeTree rest p else (k, e) :: removeTree rest p

/-- One step of `mkdir(parents=True, exist_ok=True)`: create the prefix
of length `n + 1` when absent. -/
def mkdirStep (p : FPath) (acc : FS) (n : Nat) : FS :=
  if (FS.lookup acc (p.take (n + 1))).isSome then acc
  else FS.set acc (p.take (n + 1)) Entry.dir

/-- Effect of `Path(p).mkdir(parents=True, exist_ok=True)`: create every
missing prefix of `p`, including `p` itself. -/
def mkdirParents (fs : FS) (p : FPath) : FS :=
  (List.range p.length).foldl (mkdirStep p) fs

/-- Environment answers for the permission / free-space queries consumed
by validation (`os.access`, `iterdir`, `GetDiskFreeSpaceExW`). -/
structure Env where
  readOk : FPath → Bool
  listOk : FPath → Bool
  writeOk : FPath → Bool
  diskSpaceOk : FPath → Bool

/-- Outcomes of the external OS commands issued during one run.  A
command that succeeds has its documented effect; a command that fails
leaves the filesystem unchanged. -/
structure Oracle where
  /-- `Move-Item` succeeds. -/
  moveItemOk : Bool
  /-- `robocopy /E /MOVE` transferred the whole tree to the target. -/
  robocopyCopied : Bool
  /-- `robocopy /E /MOVE` also removed the source tree. -/
  robocopyRemoved : Bool
  /-- the `robocopy` stderr carried no "ERROR" text. -/
  robocopyNoErrorText : Bool
  /-- `Remove-Item -Recurse -Force` on the leftover source succeeds. -/
  removeItemOk : Bool
  /-- `New-Item -ItemType Junction` succeeds. -/
  newItemOk : Bool
  /-- `rmdir` on a junction (rollback step 1) succeeds. -/
  rmdirOk : Bool
  /-- `mklink /J` (rollback step 3) succeeds. -/
  mklinkOk : Bool
  /-- `shutil.move` back from target (rollback step 2) succeeds. -/
  shutilMoveOk : Bool
deriving DecidableEq, Repr

/-- The durable rollback record of `rollback.py` (`self.rollback_data`,
also serialized to `rollback.json`).  `original_junction_target` is
`none` when the key is absent from the dict. -/
structure RollbackData where
  source : FPath
  target : FPath
  source_existed : Bool
  target_existed : Bool
  source_is_junction : Bool
  backup_created : Bool
  junction_created : Bool
  original_junction_target : Option FPath
  timestamp : Nat
deriving DecidableEq, Repr

/-- Whole-system state: the filesystem, the in-memory rollback record
(`RollbackManager.rollback_data`), the durable ledger slot
(`%TEMP%/OneDriveBackupTool/rollback.json`), and a clock for timestamps. -/
structure Sys where
  fs : FS
  mem : Option RollbackData
  ledger : Option RollbackData
  clock : Nat
deriving DecidableEq, Repr

namespace PathUtils

/-- `PathUtils.validate_source_path` of `src/utils/paths.py`. -/
def validate_source_path (fs : FS) (env : Env) (p : FPath) : Bool × String :=
  if p.isEmpty then (false, "Source path cannot be empty")
  else if !pathExists fs p then (false, "Source path does not exist")
  else if !isDir fs p then (false, "Source path must be a directory")
  else if !env.readOk p then (false, "No read permission for source path")
  else if !env.listOk p then
    (false, "Source path is not accessible (permission denied)")
  else if pathLen (resolve fs p) > 260 then
    (false, "Source path is too long (Windows path limit: 260 characters)")
  else (true, "")

/-- `PathUtils.validate_target_path` of `src/utils/paths.py`.  Note the
length check is applied to the resolved target path itself. -/
def validate_target_path (fs : FS) (env : Env) (p : FPath) : Bool × String :=
  if p.isEmpty then (false, "Target path cannot be empty")
  else if pathExists fs p && isFile fs p then
    (false, "Target path is a file, not a directory")
  else if pathExists fs p && !env.listOk p then
    (false, "Cannot access target directory to check contents")
  else if !pathExists fs (parentDir p) then
    (false, "Target parent directory does not exist")
  else if !env.writeOk (parentDir p) then
    (false, "No write permission for target parent directory")
  else if !env.diskSpaceOk (parentDir p) then
    (false, "Insufficient disk space at target location")
  else if pathLen (resolve fs p) > 260 then
    (false, "Target path is too long (Windows path limit: 260 characters)")
  else (true, "")

/-- `PathUtils.is_junction`: false for an empty or non-existing path,
otherwise the PowerShell `LinkType` query on the entry itself. -/
def is_junction (fs : FS) (p : FPath) : Bool :=
  if p.isEmpty || !pathExists fs p then false
  else isLinkEntry fs p

/-- `PathUtils.get_junction_target`: the stored target of a junction. -/
def get_junction_target (fs : FS) (p : FPath) : Option FPath :=
  if is_junction fs p then
    match FS.lookup fs p with
    | some (Entry.junction t) => some t
    | _ => none
  else none

end PathUtils

namespace RollbackManager

/-- `RollbackManager._is_junction`: `path.is_dir() and path.is_symlink()`. -/
def pyIsJunction (fs : FS) (p : FPath) : Bool :=
  isDir fs p && isLinkEntry fs p

/-- `RollbackManager._get_junction_target`: `path.readlink()` when the
path is a junction. -/
def pyJunctionTarget (fs : FS) (p : FPath) : Option FPath :=
  if pyIsJunction fs p then
    match FS.lookup fs p with
    | some (Entry.junction t) => some t
    | _ => none
  else none

/-- `RollbackManager.create_rollback_point`: snapshot the pre-attempt
facts and persist the record to both the in-memory slot and the durable
ledger file before anything destructive happens. -/
def create_rollback_point (s : Sys) (source target : FPath) : Sys × Bool :=
  let data : RollbackData :=
    { source := resolve s.fs source
      target := resolve s.fs target
      source_existed := pathExists s.fs source
      target_existed := pathExists s.fs target
      source_is_junction := pyIsJunction s.fs source
      backup_created := false
      junction_created := false
      original_junction_target :=
        if pyIsJunction s.fs source then pyJunctionTarget s.fs source else none
      timestamp := s.clock }
  ({ s with mem := some data, ledger := some data }, true)

/-- `RollbackManager.update_rollback_status`: merge the two progress
flags into the record and persist it again.  (Defined exactly as in the
source; `execute_backup` never calls it.) -/
def update_rollback_status (s : Sys) (backupCreated junctionCreated : Bool) : Sys :=
  match s.mem with
  | none => s
  | some d =>
    let d' := { d with backup_created := backupCreated,
                       junction_created := junctionCreated }
    { s with mem := some d', ledger := some d' }

/-- `RollbackManager._remove_junction`: `rmdir` the link when it exists
and is a junction; removing only the link, never the target contents. -/
def removeJunction (fs : FS) (p : FPath) (o : Oracle) : FS × Bool :=
  if pathExists fs p && pyIsJunction fs p then
    if o.rmdirOk then (FS.erase fs p, true) else (fs, false)
  else (fs, true)

/-- `RollbackManager._move_back_from_target`: recreate the source's
parent if needed, then `shutil.move(target, source)`; `shutil.move`
moves into the destination when the destination is an existing
directory. -/
def moveBackFromTarget (fs : FS) (source target : FPath) (o : Oracle) : FS × Bool :=
  if pathExists fs target then
    let fs1 := mkdirParents fs (parentDir source)
    if o.shutilMoveOk then
      if isDir fs1 source then
        if pathExists fs1 (source ++ [basename target]) then (fs1, false)
        else (movePaths fs1 target (source ++ [basename target]), true)
      else if pathExists fs1 source then (fs1, false)
      else (movePaths fs1 target source, true)
    else (fs1, false)
  else (fs, true)

/-- `RollbackManager._restore_junction`: `mklink /J source target`. -/
def restoreJunction (fs : FS) (source target : FPath) (o : Oracle) : FS × Bool :=
  if o.mklinkOk then (FS.set fs source (Entry.junction target), true)
  else (fs, false)

/-- Body of `RollbackManager.rollback` after the record is available:
the three compensating steps in source order, each guarded by its
recorded flag, with `success &= step(...)` accumulation. -/
def rollbackSteps (fs : FS) (d : RollbackData) (o : Oracle) : FS × Bool :=
  let r1 := if d.junction_created then removeJunction fs d.source o else (fs, true)
  let r2 := if d.backup_created then moveBackFromTarget r1.1 d.source d.target o
            else (r1.1, true)
  let r3 := if d.source_is_junction then
      match d.original_junction_target with
      | some t => restoreJunction r2.1 d.source t o
      | none => (r2.1, true)
    else (r2.1, true)
  (r3.1, r1.2 && r2.2 && r3.2)

/-- `RollbackManager.rollback`: use the in-memory record if present,
else load it from the durable ledger file; with no record anywhere, log
a warning and return `False`. -/
def rollback (s : Sys) (o : Oracle) : Sys × Bool :=
  match s.mem with
  | some d =>
    ({ s with fs := (rollbackSteps s.fs d o).1 }, (rollbackSteps s.fs d o).2)
  | none =>
    match s.ledger with
    | some d =>
      ({ s with mem := some d, fs := (rollbackSteps s.fs d o).1 },
       (rollbackSteps s.fs d o).2)
    | none => (s, false)

/-- `RollbackManager.clear_rollback_point`: drop the in-memory record
and delete the ledger file. -/
def clear_rollback_point (s : Sys) : Sys :=
  { s with mem := none, ledger := none }

end RollbackManager

namespace BackupManager

/-- `BackupManager.validate_paths` of `src/core/backup.py`: source
check, then target check, then the source-is-already-a-junction check.
Pure: it only reads the filesystem. -/
def validate_paths (fs : FS) (env : Env) (source target : FPath) : Bool × String :=
  let sv := PathUtils.validate_source_path fs env source
  if !sv.1 then (false, "Source path error: " ++ sv.2)
  else
    let tv := PathUtils.validate_target_path fs env target
    if !tv.1 then (false, "Target path error: " ++ tv.2)
    else if PathUtils.is_junction fs source then
      (false, "Source path is already a junction link")
    else (true, "")

/-- The actual-target computation of `execute_backup` (backup.py lines
92-102): when the target exists as a directory the destination is
`target / source.name`, else the target itself. -/
def actualTarget (fs : FS) (source target : FPath) : FPath :=
  if pathExists fs target && isDir fs target then target ++ [basename source]
  else target

/-- The same computation repeated inside `_move_folder` (backup.py lines
155-165). -/
def moveFolderTarget (fs : FS) (source target : FPath) : FPath :=
  if pathExists fs target && isDir fs target then target ++ [basename source]
  else target

/-- Tail of `_move_folder` (backup.py lines 173-233), after the nested
target has been computed and the target parent created: refuse an
already-existing final target, try `Move-Item` with its two post-checks,
then the `robocopy /E /MOVE` fallback with the final explicit
`Remove-Item` of a leftover source. -/
def move_folder_core (fs0 : FS) (source tgt : FPath) (o : Oracle) : FS × Bool :=
  if pathExists fs0 tgt then (fs0, false)
  else if o.moveItemOk then
    let fs1 := movePaths fs0 source tgt
    if !pathExists fs1 tgt then (fs1, false)
    else if pathExists fs1 source then (fs1, false)
    else (fs1, true)
  else
    let fs2 :=
      if o.robocopyCopied then
        if o.robocopyRemoved then removeTree (copyPaths fs0 source tgt) source
        else copyPaths fs0 source tgt
      else fs0
    let rcSuccess := o.robocopyCopied && o.robocopyRemoved
    if rcSuccess || o.robocopyNoErrorText then
      if pathExists fs2 tgt && !pathExists fs2 source then (fs2, true)
      else if pathExists fs2 tgt && pathExists fs2 source then
        if o.removeItemOk then (removeTree fs2 source, true)
        else (fs2, false)
      else (fs2, false)
    else (fs2, false)

/-- `BackupManager._move_folder` (backup.py lines 150-237): recompute
the nested target, create the target parent if missing, then run the
move proper (`move_folder_core`). -/
def move_folder (fs : FS) (source target : FPath) (o : Oracle) : FS × Bool :=
  move_folder_core
    (if !pathExists fs (parentDir (moveFolderTarget fs source target))
     then mkdirParents fs (parentDir (moveFolderTarget fs source target))
     else fs)
    source (moveFolderTarget fs source target) o

/-- `BackupManager._create_junction`: `New-Item -ItemType Junction`,
then the untrusting re-check via `PathUtils.is_junction`. -/
def create_junction (fs : FS) (source target : FPath) (o : Oracle) : FS × Bool :=
  if o.newItemOk then
    if PathUtils.is_junction (FS.set fs source (Entry.junction target)) source then
      (FS.set fs source (Entry.junction target), true)
    else (FS.set fs source (Entry.junction target), false)
  else (fs, false)

/-- `BackupManager._verify_backup`: source must be a junction, the
target must exist, and the junction's resolved target must equal the
resolved expected target. -/
def verify_backup (fs : FS) (source target : FPath) : Bool :=
  if !PathUtils.is_junction fs source then false
  else if !pathExists fs target then false
  else
    match PathUtils.get_junction_target fs source with
    | none => false
    | some jt => decide (resolve fs jt = resolve fs target)

/-- `BackupManager.execute_backup`: validate, snapshot the rollback
record, move, link, verify; clear the ledger on success; on any failure
from the move step on, call `rollback()` (its return value is discarded)
and return `False`. -/
def execute_backup (s : Sys) (source target : FPath) (env : Env) (o : Oracle) :
    Sys × Bool :=
  let v := validate_paths s.fs env source target
  if !v.1 then (s, false)
  else
    let tgt := actualTarget s.fs source target
    let s1 := (RollbackManager.create_rollback_point s source tgt).1
    let mv := move_folder s1.fs source target o
    let s2 := { s1 with fs := mv.1 }
    if !mv.2 then ((RollbackManager.rollback s2 o).1, false)
    else
      let jn := create_junction s2.fs source tgt o
      let s3 := { s2 with fs := jn.1 }
      if !jn.2 then ((RollbackManager.rollback s3 o).1, false)
      else if !verify_backup s3.fs source tgt then
        ((RollbackManager.rollback s3 o).1, false)
      else (RollbackManager.clear_rollback_point s3, true)

end BackupManager

/-- Follows the spec's words (section 3, EffectiveTarget): if
`targetPath` exists and is a directory, the effective destination is
`targetPath/basename(sourcePath)`; otherwise it is `targetPath` itself. -/
def effectiveTargetSpec (fs : FS) (sourcePath targetPath : FPath) : FPath :=
  if pathExists fs targetPath && isDir fs targetPath then
    targetPath ++ [basename sourcePath]
  else targetPath

/-- Follows the spec's words (section 4.2, compensating sequence): in
strict reverse order of forward progress - remove the junction at source
if one was created, move content back from target to source if the move
had completed, recreate the original junction if the source was one -
continuing even if an earlier compensating step fails and accumulating a
combined success flag. -/
def specCompensation (fs : FS) (d : RollbackData) (o : Oracle) : FS × Bool :=
  let r1 := if d.junction_created then RollbackManager.removeJunction fs d.source o
            else (fs, true)
  let r2 := if d.backup_created then
      RollbackManager.moveBackFromTarget r1.1 d.source d.target o
    else (r1.1, true)
  let r3 := if d.source_is_junction then
      match d.original_junction_target with
      | some t => RollbackManager.restoreJunction r2.1 d.source t o
      | none => (r2.1, true)
    else (r2.1, true)
  (r3.1, r1.2 && r2.2 && r3.2)

/-!
Concrete states used by the claim theorems, witnesses and
counterexamples.  `fsDemo` is the plain happy-path world of spec
section 8 scenario 1: an ordinary source directory with one file, and a
target that does not exist yet under an existing cloud directory.
-/

/-- Environment in which every permission and free-space query passes. -/
def envAll : Env := ⟨fun _ => true, fun _ => true, fun _ => true, fun _ => true⟩

/-- Oracle in which every external command succeeds. -/
def oracleAll : Oracle :=
  { moveItemOk := true, robocopyCopied := true, robocopyRemoved := true,
    robocopyNoErrorText := true, removeItemOk := true, newItemOk := true,
    rmdirOk := true, mklinkOk := true, shutilMoveOk := true }

/-- A source directory `C:/proj` with one file, and an existing `C:/cloud`. -/
def fsDemo : FS :=
  [(["C:"], Entry.dir), (["C:", "proj"], Entry.dir),
   (["C:", "proj", "notes.txt"], Entry.file), (["C:", "cloud"], Entry.dir)]

/-- Fresh system over `fsDemo`, no pending rollback record. -/
def sysDemo : Sys := { fs := fsDemo, mem := none, ledger := none, clock := 0 }

/-- Demo relocation source `C:/proj`. -/
def srcDemo : FPath := ["C:", "proj"]

/-- Demo relocation target `C:/cloud/bk` (does not exist yet). -/
def tgtDemo : FPath := ["C:", "cloud", "bk"]

/-- State after the snapshot step of `execute_backup` on the demo run. -/
def sysSnapDemo : Sys :=
  (RollbackManager.create_rollback_point sysDemo srcDemo
    (BackupManager.actualTarget sysDemo.fs srcDemo tgtDemo)).1

/-- Result of the move step of `execute_backup` on the demo run. -/
def moveResDemo : FS × Bool :=
  BackupManager.move_folder sysSnapDemo.fs srcDemo tgtDemo oracleAll

/-- System state after the move step of the demo run (the move step
touches only the filesystem; the ledger is whatever the snapshot left). -/
def sysAfterMoveDemo : Sys := { sysSnapDemo with fs := moveResDemo.1 }

/-- Result of the link step that follows the move step on the demo run. -/
def linkResDemo : FS × Bool :=
  BackupManager.create_junction sysAfterMoveDemo.fs srcDemo
    (BackupManager.actualTarget sysDemo.fs srcDemo tgtDemo) oracleAll

/-- System state after the link step of the demo run (the link step
also touches only the filesystem). -/
def sysAfterLinkDemo : Sys := { sysAfterMoveDemo with fs := linkResDemo.1 }

/-- The demo run interrupted right after the move step: a fresh process
has no in-memory record, the filesystem and the durable ledger survive. -/
def sysCrashedDemo : Sys :=
  { fs := sysAfterMoveDemo.fs, mem := none, ledger := sysAfterMoveDemo.ledger,
    clock := 1 }

/-- World in which the effective target `C:/cloud/proj` already exists
inside the existing target directory `C:/cloud`. -/
def fsClash : FS :=
  [(["C:"], Entry.dir), (["C:", "proj"], Entry.dir),
   (["C:", "proj", "notes.txt"], Entry.file), (["C:", "cloud"], Entry.dir),
   (["C:", "cloud", "proj"], Entry.dir)]

/-- Fresh system over `fsClash`. -/
def sysClash : Sys := { fs := fsClash, mem := none, ledger := none, clock := 0 }

/-- Target used with `fsClash`: the existing directory `C:/cloud`. -/
def tgtClash : FPath := ["C:", "cloud"]

/-- A 255-character folder name. -/
def longName : String := String.mk (List.replicate 255 'a')

/-- World whose source basename is 255 characters: the source path stays
within the 260-character limit, the nested effective target does not. -/
def fsLong : FS :=
  [(["C:"], Entry.dir), (["C:", longName], Entry.dir),
   (["C:", longName, "n.txt"], Entry.file), (["C:", "cloud"], Entry.dir)]

/-- Fresh system over `fsLong`. -/
def sysLong : Sys := { fs := fsLong, mem := none, ledger := none, clock := 0 }

/-- Long-basename source `C:/aaa...a`. -/
def srcLong : FPath := ["C:", longName]

/-- Target used with `fsLong`: the existing directory `C:/cloud`. -/
def tgtLong : FPath := ["C:", "cloud"]

/-- Oracle in which the junction-creation command fails (link step fails). -/
def oracleNoLink : Oracle := { oracleAll with newItemOk := false }

/-- Like `oracleNoLink`, but the compensating `rmdir` would also fail. -/
def oracleNoLinkNoRmdir : Oracle := { oracleNoLink with rmdirOk := false }

/-- Oracle in which only the compensating `rmdir` fails. -/
def oracleNoRmdir : Oracle := { oracleAll with rmdirOk := false }

/-- A rollback record with both progress flags set, as the write-ahead
discipline would have left it after the link step. -/
def dataFlags : RollbackData :=
  { source := srcDemo, target := tgtDemo, source_existed := true,
    target_existed := false, source_is_junction := false,
    backup_created := true, junction_created := true,
    original_junction_target := none, timestamp := 0 }

/-- Mid-rollback world matching `dataFlags`: the source is a junction to
the populated target. -/
def sysRB : Sys :=
  { fs := [(["C:"], Entry.dir), (srcDemo, Entry.junction tgtDemo),
           (["C:", "cloud"], Entry.dir), (tgtDemo, Entry.dir),
           (tgtDemo ++ ["notes.txt"], Entry.file)],
    mem := some dataFlags, ledger := some dataFlags, clock := 0 }

/-!
Helper lemmas about the filesystem primitives.  These support the claim
theorems below and are shared between them.
-/

theorem FS.lookup_erase_ne {fs : FS} {p q : FPath} (h : p ≠ q) :
    FS.lookup (FS.erase fs q) p = FS.lookup fs p := by
  induction fs with
  | nil => rfl
  | cons qe rest ih =>
    obtain ⟨k, e⟩ := qe
    have hqp : ¬ q = p := fun hh => h hh.symm
    by_cases hq : k = q
    · have hp : ¬ k = p := fun hh => h (hh ▸ (hq ▸ rfl))
      simp [FS.erase, FS.lookup, hq, hp, hqp, ih]
    · by_cases hp : k = p
      · simp [FS.erase, FS.lookup, hq, hp, h]
      · simp [FS.erase, FS.lookup, hq, hp, ih]

theorem FS.lookup_set_self (fs : FS) (p : FPath) (e : Entry) :
    FS.lookup (FS.set fs p e) p = some e := by
  simp [FS.set, FS.lookup]

theorem FS.lookup_set_ne {fs : FS} {p q : FPath} {e : Entry} (h : p ≠ q) :
    FS.lookup (FS.set fs q e) p = FS.lookup fs p := by
  have hq : ¬ q = p := fun hh => h hh.symm
  simp only [FS.set, FS.lookup, if_neg hq]
  exact FS.lookup_erase_ne h

theorem FS.lookup_append (A B : FS) (p : FPath) :
    FS.lookup (A ++ B) p =
      (match FS.lookup A p with
       | some e => some e
       | none => FS.lookup B p) := by
  induction A with
  | nil => rfl
  | cons qe rest ih =>
    by_cases hp : qe.1 = p
    · simp [FS.lookup, hp]
    · simpa [FS.lookup, hp] using ih

theorem append_drop_eq_self {src k : FPath} (h : src <+: k) :
    src ++ k.drop src.length = k := by
  obtain ⟨r, hr⟩ := h
  subst hr
  simp

theorem mapped_key_eq_dst_iff {src k dst : FPath} (h : src <+: k) :
    dst ++ k.drop src.length = dst ↔ k = src := by
  constructor
  · intro hh
    have hl := congrArg List.length hh
    simp only [List.length_append] at hl
    have hr : k.drop src.length = [] := List.eq_nil_of_length_eq_zero (by omega)
    have hk := append_drop_eq_self h
    rw [hr, List.append_nil] at hk
    exact hk.symm
  · intro hh
    subst hh
    simp

theorem not_isPrefixOf_self_of {src k : FPath} (h : ¬ src.isPrefixOf k = true)
    (hk : k = src) : False := by
  subst hk
  exact h (List.isPrefixOf_iff_prefix.mpr (List.prefix_refl _))

theorem lookup_movePaths_dst {fs : FS} {src dst : FPath}
    (hnone : FS.lookup fs dst = none) :
    FS.lookup (movePaths fs src dst) dst = FS.lookup fs src := by
  induction fs with
  | nil => rfl
  | cons qe rest ih =>
    obtain ⟨k, e⟩ := qe
    have hk : ¬ k = dst := by
      intro hh
      simp [FS.lookup, hh] at hnone
    have hrest : FS.lookup rest dst = none := by
      simpa [FS.lookup, hk] using hnone
    by_cases hpre : src.isPrefixOf k = true
    · have hpre' : src <+: k := List.isPrefixOf_iff_prefix.mp hpre
      by_cases hks : k = src
      · subst hks
        simp only [movePaths]
        rw [if_pos hpre]
        simp [FS.lookup, List.drop_length]
      · have hkey : ¬ dst ++ k.drop src.length = dst := by
          rw [mapped_key_eq_dst_iff hpre']
          exact hks
        simp only [movePaths]
        rw [if_pos hpre]
        simp [FS.lookup, hkey, hks, ih hrest]
    · have hks : ¬ k = src := fun hh => not_isPrefixOf_self_of hpre hh
      simp only [movePaths]
      rw [if_neg hpre]
      simp [FS.lookup, hk, hks, ih hrest]

theorem lookup_movePaths_src {fs : FS} {src dst : FPath} (hds : ¬ dst <+: src) :
    FS.lookup (movePaths fs src dst) src = none := by
  induction fs with
  | nil => rfl
  | cons qe rest ih =>
    obtain ⟨k, e⟩ := qe
    by_cases hpre : src.isPrefixOf k = true
    · have hkey : ¬ dst ++ k.drop src.length = src := by
        intro hh
        exact hds (hh ▸ List.prefix_append dst _)
      simp only [movePaths]
      rw [if_pos hpre]
      simp [FS.lookup, hkey, ih]
    · have hks : ¬ k = src := fun hh => not_isPrefixOf_self_of hpre hh
      simp only [movePaths]
      rw [if_neg hpre]
      simp [FS.lookup, hks, ih]

theorem lookup_copyTree_dst {fs : FS} {src dst : FPath} :
    FS.lookup (copyTree fs src dst) dst = FS.lookup fs src := by
  induction fs with
  | nil => rfl
  | cons qe rest ih =>
    obtain ⟨k, e⟩ := qe
    by_cases hpre : src.isPrefixOf k = true
    · have hpre' : src <+: k := List.isPrefixOf_iff_prefix.mp hpre
      by_cases hks : k = src
      · subst hks
        simp only [copyTree]
        rw [if_pos hpre]
        simp [FS.lookup, List.drop_length]
      · have hkey : ¬ dst ++ k.drop src.length = dst := by
          rw [mapped_key_eq_dst_iff hpre']
          exact hks
        simp only [copyTree]
        rw [if_pos hpre]
        simp [FS.lookup, hkey, hks, ih]
    · have hks : ¬ k = src := fun hh => not_isPrefixOf_self_of hpre hh
      simp only [copyTree]
      rw [if_neg hpre]
      simp [FS.lookup, hks, ih]

theorem lookup_copyTree_not_under {fs : FS} {src dst p : FPath} (h : ¬ dst <+: p) :
    FS.lookup (copyTree fs src dst) p = none := by
  induction fs with
  | nil => rfl
  | cons qe rest ih =>
    obtain ⟨k, e⟩ := qe
    by_cases hpre : src.isPrefixOf k = true
    · have hkey : ¬ dst ++ k.drop src.length = p := by
        intro hh
        exact h (hh ▸ List.prefix_append dst _)
      simp only [copyTree]
      rw [if_pos hpre]
      simp [FS.lookup, hkey, ih]
    · simp only [copyTree]
      rw [if_neg hpre]
      exact ih

theorem lookup_copyPaths_dst {fs : FS} {src dst : FPath}
    (hsome : (FS.lookup fs src).isSome = true) :
    FS.lookup (copyPaths fs src dst) dst = FS.lookup fs src := by
  rw [copyPaths, FS.lookup_append, lookup_copyTree_dst]
  obtain ⟨e, he⟩ := Option.isSome_iff_exists.mp hsome
  rw [he]

theorem lookup_copyPaths_not_under {fs : FS} {src dst p : FPath} (h : ¬ dst <+: p) :
    FS.lookup (copyPaths fs src dst) p = FS.lookup fs p := by
  rw [copyPaths, FS.lookup_append, lookup_copyTree_not_under h]

theorem lookup_removeTree_not_under {fs : FS} {p q : FPath} (h : ¬ p <+: q) :
    FS.lookup (removeTree fs p) q = FS.lookup fs q := by
  induction fs with
  | nil => rfl
  | cons qe rest ih =>
    obtain ⟨k, e⟩ := qe
    by_cases hpre : p.isPrefixOf k = true
    · have hk : ¬ k = q := by
        intro hh
        exact h (hh ▸ List.isPrefixOf_iff_prefix.mp hpre)
      simp only [removeTree]
      rw [if_pos hpre]
      simp [FS.lookup, hk, ih]
    · simp only [removeTree]
      rw [if_neg hpre]
      by_cases hk : k = q
      · simp [FS.lookup, hk]
      · simp [FS.lookup, hk, ih]

theorem lookup_removeTree_under {fs : FS} {p q : FPath} (h : p <+: q) :
    FS.lookup (removeTree fs p) q = none := by
  induction fs with
  | nil => rfl
  | cons qe rest ih =>
    obtain ⟨k, e⟩ := qe
    by_cases hpre : p.isPrefixOf k = true
    · simp only [removeTree]
      rw [if_pos hpre]
      exact ih
    · have hk : ¬ k = q := by
        intro hh
        subst hh
        exact hpre (List.isPrefixOf_iff_prefix.mpr h)
      simp only [removeTree]
      rw [if_neg hpre]
      simp [FS.lookup, hk, ih]

theorem lookup_foldl_mkdirStep_of_ne {p q : FPath} (L : List Nat) (fs : FS)
    (h : ∀ n, q ≠ p.take (n + 1)) :
    FS.lookup (L.foldl (mkdirStep p) fs) q = FS.lookup fs q := by
  induction L generalizing fs with
  | nil => rfl
  | cons n L ih =>
    rw [List.foldl_cons, ih (mkdirStep p fs n)]
    unfold mkdirStep
    split
    · rfl
    · exact FS.lookup_set_ne (h n)

theorem lookup_mkdirParents_of_ne {fs : FS} {p q : FPath}
    (h : ∀ n, q ≠ p.take (n + 1)) :
    FS.lookup (mkdirParents fs p) q = FS.lookup fs q :=
  lookup_foldl_mkdirStep_of_ne _ fs h

theorem lookup_foldl_mkdirStep_isSome {p q : FPath} (L : List Nat) (fs : FS)
    (h : (FS.lookup fs q).isSome = true) :
    FS.lookup (L.foldl (mkdirStep p) fs) q = FS.lookup fs q := by
  induction L generalizing fs with
  | nil => rfl
  | cons n L ih =>
    have hstep : FS.lookup (mkdirStep p fs n) q = FS.lookup fs q := by
      unfold mkdirStep
      split
      · rfl
      · rename_i hnone
        have hq : q ≠ p.take (n + 1) := by
          intro hh
          rw [hh] at h
          exact hnone (by simpa using h)
        exact FS.lookup_set_ne hq
    rw [List.foldl_cons, ih (mkdirStep p fs n) (by rw [hstep]; exact h), hstep]

theorem lookup_mkdirParents_isSome {fs : FS} {p q : FPath}
    (h : (FS.lookup fs q).isSome = true) :
    FS.lookup (mkdirParents fs p) q = FS.lookup fs q :=
  lookup_foldl_mkdirStep_isSome _ fs h

theorem lookup_mkdirParents_longer {fs : FS} {p q : FPath}
    (hlen : p.length < q.length) :
    FS.lookup (mkdirParents fs p) q = FS.lookup fs q := by
  refine lookup_mkdirParents_of_ne fun n hh => ?_
  have := congrArg List.length hh
  simp [List.length_take] at this
  omega

theorem lookup_mkdirParents_not_under {fs : FS} {p q src : FPath}
    (hsq : src <+: q) (hnp : ¬ src <+: p) :
    FS.lookup (mkdirParents fs p) q = FS.lookup fs q := by
  refine lookup_mkdirParents_of_ne fun n hh => ?_
  exact hnp ((hh ▸ hsq).trans (List.take_prefix _ _))

theorem validate_source_path_true {fs : FS} {env : Env} {p : FPath}
    (h : (PathUtils.validate_source_path fs env p).1 = true) :
    p.isEmpty = false ∧ pathExists fs p = true ∧ isDir fs p = true := by
  unfold PathUtils.validate_source_path at h
  split_ifs at h with h1 h2 h3 h4 h5 h6 <;> simp_all

theorem validate_target_path_true {fs : FS} {env : Env} {p : FPath}
    (h : (PathUtils.validate_target_path fs env p).1 = true) :
    p.isEmpty = false ∧ pathLen (resolve fs p) ≤ 260 := by
  unfold PathUtils.validate_target_path at h
  split_ifs at h with h1 h2 h3 h4 h5 h6 h7 <;> simp_all

theorem validate_paths_true {fs : FS} {env : Env} {src tgt : FPath}
    (h : (BackupManager.validate_paths fs env src tgt).1 = true) :
    (PathUtils.validate_source_path fs env src).1 = true ∧
    (PathUtils.validate_target_path fs env tgt).1 = true ∧
    PathUtils.is_junction fs src = false := by
  unfold BackupManager.validate_paths at h
  simp only [Bool.not_eq_true'] at h
  by_cases hs : (PathUtils.validate_source_path fs env src).1 = false
  · rw [if_pos hs] at h
    simp at h
  · rw [if_neg hs] at h
    by_cases ht : (PathUtils.validate_target_path fs env tgt).1 = false
    · rw [if_pos ht] at h
      simp at h
    · rw [if_neg ht] at h
      by_cases hj : PathUtils.is_junction fs src = true
      · rw [if_pos hj] at h
        simp at h
      · exact ⟨by simpa using hs, by simpa using ht, by simpa using hj⟩

theorem validate_target_path_false_of_long {fs : FS} {env : Env} {p : FPath}
    (h : pathLen (resolve fs p) > 260) :
    (PathUtils.validate_target_path fs env p).1 = false := by
  unfold PathUtils.validate_target_path
  split_ifs with h1 h2 h3 h4 h5 h6 h7 <;> simp_all

theorem isLinkEntry_false_of_valid {fs : FS} {p : FPath}
    (hne : p.isEmpty = false) (hex : pathExists fs p = true)
    (h : PathUtils.is_junction fs p = false) :
    isLinkEntry fs p = false := by
  unfold PathUtils.is_junction at h
  simpa [hne, hex] using h

theorem rollbackSteps_inactive {fs : FS} {d : RollbackData} {o : Oracle}
    (h1 : d.junction_created = false) (h2 : d.backup_created = false)
    (h3 : d.source_is_junction = false) :
    RollbackManager.rollbackSteps fs d o = (fs, true) := by
  unfold RollbackManager.rollbackSteps
  simp [h1, h2, h3]

theorem rollback_of_inactive_mem {s : Sys} {d : RollbackData} {o : Oracle}
    (hm : s.mem = some d)
    (h1 : d.junction_created = false) (h2 : d.backup_created = false)
    (h3 : d.source_is_junction = false) :
    RollbackManager.rollback s o = (s, true) := by
  obtain ⟨fs, mem, ledger, clock⟩ := s
  simp only at hm
  subst hm
  unfold RollbackManager.rollback
  simp [rollbackSteps_inactive h1 h2 h3]

theorem moveFolderTarget_ne_nil {fs : FS} {src tgt : FPath} (h : tgt ≠ []) :
    BackupManager.moveFolderTarget fs src tgt ≠ [] := by
  unfold BackupManager.moveFolderTarget
  split
  · simp
  · exact h

theorem pathExists_some_nonjunction {fs : FS} {p : FPath} {e : Entry}
    (hp : p ≠ []) (he : FS.lookup fs p = some e)
    (hnj : e = Entry.dir ∨ e = Entry.file) :
    pathExists fs p = true := by
  cases p with
  | nil => simp at hp
  | cons a l =>
    simp only [pathExists, he]
    rcases hnj with h | h <;> subst h <;> rfl

theorem pathExists_none {fs : FS} {p : FPath} (hp : p ≠ [])
    (h : FS.lookup fs p = none) : pathExists fs p = false := by
  cases p with
  | nil => simp at hp
  | cons a l => simp only [pathExists, h]

theorem lookup_of_exists_nonjunction {fs : FS} {p : FPath}
    (hp : p ≠ []) (hex : pathExists fs p = true) (hnj : isLinkEntry fs p = false) :
    ∃ e, FS.lookup fs p = some e ∧ (e = Entry.dir ∨ e = Entry.file) := by
  cases p with
  | nil => simp at hp
  | cons a l =>
    cases hlk : FS.lookup fs (a :: l) with
    | none =>
      simp only [pathExists, hlk] at hex
      cases hex
    | some e =>
      cases e with
      | dir => exact ⟨Entry.dir, rfl, Or.inl rfl⟩
      | file => exact ⟨Entry.file, rfl, Or.inr rfl⟩
      | junction t =>
        simp only [isLinkEntry, hlk] at hnj
        cases hnj

theorem lookup_none_of_not_exists {fs : FS} {p : FPath}
    (hp : p ≠ []) (hex : pathExists fs p = false) (hnj : isLinkEntry fs p = false) :
    FS.lookup fs p = none := by
  cases p with
  | nil => simp at hp
  | cons a l =>
    cases hlk : FS.lookup fs (a :: l) with
    | none => rfl
    | some e =>
      cases e with
      | dir => simp only [pathExists, hlk] at hex; cases hex
      | file => simp only [pathExists, hlk] at hex; cases hex
      | junction t => simp only [isLinkEntry, hlk] at hnj; cases hnj

theorem not_prefix_of_separated {src t p : FPath}
    (hsp : src <+: p) (h1 : ¬ src <+: t) (h2 : ¬ t <+: src) : ¬ t <+: p := by
  intro htp
  rcases List.prefix_or_prefix_of_prefix hsp htp with h | h
  · exact h1 h
  · exact h2 h

theorem create_rollback_point_fs (s : Sys) (src tgt : FPath) :
    (RollbackManager.create_rollback_point s src tgt).1.fs = s.fs := rfl

theorem execute_backup_invalid {s : Sys} {src tgt : FPath} {env : Env} {o : Oracle}
    (h : (BackupManager.validate_paths s.fs env src tgt).1 = false) :
    BackupManager.execute_backup s src tgt env o = (s, false) := by
  unfold BackupManager.execute_backup
  simp [h]

theorem execute_backup_of_moveFail {s : Sys} {src tgt : FPath} {env : Env} {o : Oracle}
    (hv : (BackupManager.validate_paths s.fs env src tgt).1 = true)
    (hm : (BackupManager.move_folder s.fs src tgt o).2 = false) :
    BackupManager.execute_backup s src tgt env o =
      ((RollbackManager.rollback
          { (RollbackManager.create_rollback_point s src
               (BackupManager.actualTarget s.fs src tgt)).1 with
            fs := (BackupManager.move_folder s.fs src tgt o).1 } o).1, false) := by
  unfold BackupManager.execute_backup
  simp [create_rollback_point_fs, hv, hm]

theorem execute_backup_snd_char (s : Sys) (src tgt : FPath) (env : Env) (o : Oracle) :
    (BackupManager.execute_backup s src tgt env o).2 =
      ((BackupManager.validate_paths s.fs env src tgt).1 &&
       ((BackupManager.move_folder s.fs src tgt o).2 &&
        ((BackupManager.create_junction (BackupManager.move_folder s.fs src tgt o).1
            src (BackupManager.actualTarget s.fs src tgt) o).2 &&
         BackupManager.verify_backup
           (BackupManager.create_junction (BackupManager.move_folder s.fs src tgt o).1
             src (BackupManager.actualTarget s.fs src tgt) o).1
           src (BackupManager.actualTarget s.fs src tgt)))) := by
  unfold BackupManager.execute_backup
  by_cases hv : (BackupManager.validate_paths s.fs env src tgt).1 = true
  · by_cases hm : (BackupManager.move_folder s.fs src tgt o).2 = true
    · by_cases hj : (BackupManager.create_junction
          (BackupManager.move_folder s.fs src tgt o).1 src
          (BackupManager.actualTarget s.fs src tgt) o).2 = true
      · by_cases hver : BackupManager.verify_backup
            (BackupManager.create_junction (BackupManager.move_folder s.fs src tgt o).1
              src (BackupManager.actualTarget s.fs src tgt) o).1
            src (BackupManager.actualTarget s.fs src tgt) = true
        · simp [create_rollback_point_fs, hv, hm, hj, hver]
        · simp [create_rollback_point_fs, hv, hm, hj,
            (by simpa using hver : _ = false)]
      · simp [create_rollback_point_fs, hv, hm, (by simpa using hj : _ = false)]
    · simp [create_rollback_point_fs, hv, (by simpa using hm : _ = false)]
  · simp [create_rollback_point_fs, (by simpa using hv : _ = false)]

theorem create_junction_fst_of_ok {fs : FS} {src t : FPath} {o : Oracle}
    (hn : o.newItemOk = true) :
    (BackupManager.create_junction fs src t o).1 =
      FS.set fs src (Entry.junction t) := by
  unfold BackupManager.create_junction
  rw [if_pos hn]
  split <;> rfl

theorem create_junction_ok_of_snd {fs : FS} {src t : FPath} {o : Oracle}
    (h : (BackupManager.create_junction fs src t o).2 = true) :
    o.newItemOk = true := by
  by_cases hn : o.newItemOk = true
  · exact hn
  · unfold BackupManager.create_junction at h
    rw [if_neg hn] at h
    cases h

theorem execute_backup_success_state {s : Sys} {src tgt : FPath} {env : Env}
    {o : Oracle}
    (hv : (BackupManager.validate_paths s.fs env src tgt).1 = true)
    (hm : (BackupManager.move_folder s.fs src tgt o).2 = true)
    (hj : (BackupManager.create_junction (BackupManager.move_folder s.fs src tgt o).1
        src (BackupManager.actualTarget s.fs src tgt) o).2 = true)
    (hver : BackupManager.verify_backup
        (BackupManager.create_junction (BackupManager.move_folder s.fs src tgt o).1
          src (BackupManager.actualTarget s.fs src tgt) o).1
        src (BackupManager.actualTarget s.fs src tgt) = true) :
    BackupManager.execute_backup s src tgt env o =
      (RollbackManager.clear_rollback_point
        { (RollbackManager.create_rollback_point s src
             (BackupManager.actualTarget s.fs src tgt)).1 with
          fs := (BackupManager.create_junction
              (BackupManager.move_folder s.fs src tgt o).1
              src (BackupManager.actualTarget s.fs src tgt) o).1 }, true) := by
  unfold BackupManager.execute_backup
  simp [create_rollback_point_fs, hv, hm, hj, hver]

theorem move_folder_core_fail_frame {fs0 : FS} {src t' : FPath} {o : Oracle}
    {es : Entry}
    (hsne : src ≠ []) (htne : t' ≠ [])
    (hes : FS.lookup fs0 src = some es)
    (hesd : es = Entry.dir ∨ es = Entry.file)
    (htnj : isLinkEntry fs0 t' = false)
    (hns : ¬ src <+: t') (hsn : ¬ t' <+: src)
    (hfail : (BackupManager.move_folder_core fs0 src t' o).2 = false) :
    (∀ p, src <+: p →
      FS.lookup (BackupManager.move_folder_core fs0 src t' o).1 p = FS.lookup fs0 p) ∧
    (pathExists (BackupManager.move_folder_core fs0 src t' o).1 t' = true →
      pathExists fs0 t' = true ∨ o.robocopyCopied = true) := by
  by_cases hA : pathExists fs0 t' = true
  · have hmfeq : BackupManager.move_folder_core fs0 src t' o = (fs0, false) := by
      unfold BackupManager.move_folder_core
      rw [if_pos hA]
    rw [hmfeq]
    exact ⟨fun p _ => rfl, fun _ => Or.inl hA⟩
  · have hA' : pathExists fs0 t' = false := by simpa using hA
    have hnone : FS.lookup fs0 t' = none := lookup_none_of_not_exists htne hA' htnj
    by_cases hmi : o.moveItemOk = true
    · exfalso
      have h1t : FS.lookup (movePaths fs0 src t') t' = some es :=
        (lookup_movePaths_dst hnone).trans hes
      have hex1 : pathExists (movePaths fs0 src t') t' = true :=
        pathExists_some_nonjunction htne h1t hesd
      have h1s : FS.lookup (movePaths fs0 src t') src = none :=
        lookup_movePaths_src hsn
      have hnex1 : pathExists (movePaths fs0 src t') src = false :=
        pathExists_none hsne h1s
      unfold BackupManager.move_folder_core at hfail
      rw [if_neg hA, if_pos hmi] at hfail
      simp [hex1, hnex1] at hfail
    · by_cases hc : o.robocopyCopied = true
      · have hcs : (FS.lookup fs0 src).isSome = true := by rw [hes]; rfl
        have hct : FS.lookup (copyPaths fs0 src t') t' = some es :=
          (lookup_copyPaths_dst hcs).trans hes
        have hex2 : pathExists (copyPaths fs0 src t') t' = true :=
          pathExists_some_nonjunction htne hct hesd
        by_cases hr : o.robocopyRemoved = true
        · exfalso
          have h2t : FS.lookup (removeTree (copyPaths fs0 src t') src) t' = some es :=
            (lookup_removeTree_not_under hns).trans hct
          have hex2r : pathExists (removeTree (copyPaths fs0 src t') src) t' = true :=
            pathExists_some_nonjunction htne h2t hesd
          have h2s : FS.lookup (removeTree (copyPaths fs0 src t') src) src = none :=
            lookup_removeTree_under (List.prefix_refl src)
          have hnex2 : pathExists (removeTree (copyPaths fs0 src t') src) src = false :=
            pathExists_none hsne h2s
          unfold BackupManager.move_folder_core at hfail
          rw [if_neg hA, if_neg hmi] at hfail
          simp [hc, hr, hex2r, hnex2] at hfail
        · have h2s : FS.lookup (copyPaths fs0 src t') src = some es :=
            (lookup_copyPaths_not_under hsn).trans hes
          have hex2s : pathExists (copyPaths fs0 src t') src = true :=
            pathExists_some_nonjunction hsne h2s hesd
          have hmfeq : BackupManager.move_folder_core fs0 src t' o
              = (copyPaths fs0 src t', false) := by
            unfold BackupManager.move_folder_core
            rw [if_neg hA, if_neg hmi]
            by_cases hne2 : o.robocopyNoErrorText = true
            · by_cases hri : o.removeItemOk = true
              · exfalso
                unfold BackupManager.move_folder_core at hfail
                rw [if_neg hA, if_neg hmi] at hfail
                simp [hc, hr, hne2, hex2, hex2s, hri] at hfail
              · simp [hc, hr, hne2, hex2, hex2s, hri]
            · simp [hc, hr, hne2]
          rw [hmfeq]
          exact ⟨fun p hp => lookup_copyPaths_not_under
            (not_prefix_of_separated hp hns hsn), fun _ => Or.inr hc⟩
      · have hmfeq : BackupManager.move_folder_core fs0 src t' o = (fs0, false) := by
          unfold BackupManager.move_folder_core
          rw [if_neg hA, if_neg hmi]
          by_cases hne2 : o.robocopyNoErrorText = true
          · simp [hc, hne2, hA']
          · simp [hc, hne2]
        rw [hmfeq]
        exact ⟨fun p _ => rfl, fun hpe => Or.inl hpe⟩

/-!
Claim theorems.
-/

/-- C1: the claim says the rollback record is durably persisted before
any destructive action (which holds: the snapshot is written before the
move step) and is persisted again with `backupCreated = true` after the
move step and `junctionCreated = true` after the link step.  The code
never calls `update_rollback_status`, so on the concrete demo run the
move and link steps complete successfully while the durable ledger
record still carries both progress flags as `false` - the write-ahead
updates the claim describes never happen. -/
theorem c1_progress_flags_never_persisted :
    sysSnapDemo.ledger.isSome = true ∧
    moveResDemo.2 = true ∧
    sysAfterMoveDemo.ledger.map RollbackData.backup_created = some false ∧
    linkResDemo.2 = true ∧
    sysAfterLinkDemo.ledger.map RollbackData.junction_created = some false := by
  decide

/-- C2: the claim says that after a crash between the snapshot and the
commit, a fresh `rollback` call loads the durable record and fully
restores the pre-attempt state.  On the concrete demo run interrupted
right after the move step, the fresh call does load the record and even
reports success, but performs no filesystem action at all: the source
directory existed before the attempt and is still missing afterwards,
because the loaded record's progress flags were never updated. -/
theorem c2_crash_recovery_restores_nothing :
    (RollbackManager.rollback sysCrashedDemo oracleAll).1.mem = sysCrashedDemo.ledger ∧
    (RollbackManager.rollback sysCrashedDemo oracleAll).2 = true ∧
    (RollbackManager.rollback sysCrashedDemo oracleAll).1.fs = sysCrashedDemo.fs ∧
    pathExists sysDemo.fs srcDemo = true ∧
    pathExists (RollbackManager.rollback sysCrashedDemo oracleAll).1.fs srcDemo = false := by
  decide

/-- C4 counterexample: with no rollback record in memory or in the
ledger, `rollback` does leave the filesystem untouched, but it returns
`false` - it reports failure, refuting the claim that it reports
success. -/
theorem c4_counterexample_reports_failure :
    sysDemo.mem = none ∧ sysDemo.ledger = none ∧
    RollbackManager.rollback sysDemo oracleAll = (sysDemo, false) := by
  decide

/-- C4 amended: calling `rollback` when no rollback record exists
(neither in memory nor in durable storage) performs no filesystem action
and never raises, but it reports failure: it returns the state unchanged
paired with `false`, not success. -/
theorem c4_amended_noop_but_reports_failure (s : Sys) (o : Oracle)
    (h1 : s.mem = none) (h2 : s.ledger = none) :
    RollbackManager.rollback s o = (s, false) := by
  unfold RollbackManager.rollback
  rw [h1, h2]

/-- C4 witness: the amended statement evaluated on a concrete recordless
state. -/
theorem c4_amended_noop_but_reports_failure_witness :
    RollbackManager.rollback { fs := fsClash, mem := none, ledger := none, clock := 5 }
        oracleNoRmdir
      = ({ fs := fsClash, mem := none, ledger := none, clock := 5 }, false) :=
  c4_amended_noop_but_reports_failure _ _ rfl rfl

set_option maxRecDepth 8000 in
/-- C7 counterexample: a request whose source basename is 255 characters
against an existing target directory: the whole request validates even
though the resolved effective target (`target/basename(source)`) is 264
characters, beyond the 260-character limit - the length check is applied
to the target path only, never to the nested effective target. -/
theorem c7_counterexample_effective_target_length_unchecked :
    (BackupManager.validate_paths fsLong envAll srcLong tgtLong).1 = true ∧
    pathExists fsLong tgtLong = true ∧ isDir fsLong tgtLong = true ∧
    pathLen (resolve fsLong (effectiveTargetSpec fsLong srcLong tgtLong)) > 260 := by
  decide

/-- C7 amended: validation rejects every request whose resolved target
path itself exceeds the 260-character limit; the nested effective-target
path (`target/basename(source)` when the target is an existing
directory) is not length-checked. -/
theorem c7_amended_target_length_checked (fs : FS) (env : Env) (src tgt : FPath)
    (h : pathLen (resolve fs tgt) > 260) :
    (BackupManager.validate_paths fs env src tgt).1 = false := by
  unfold BackupManager.validate_paths
  have ht := @validate_target_path_false_of_long fs env tgt h
  by_cases hs : (PathUtils.validate_source_path fs env src).1 = false
  · simp [hs]
  · simp [hs, ht]

set_option maxRecDepth 8000 in
/-- C7 witness: the amended statement evaluated on a concrete overlong
target path. -/
theorem c7_amended_target_length_checked_witness :
    pathLen (resolve fsLong ["C:", longName, longName]) > 260 ∧
    (BackupManager.validate_paths fsLong envAll srcLong ["C:", longName, longName]).1
      = false :=
  ⟨by decide, c7_amended_target_length_checked fsLong envAll srcLong _ (by decide)⟩

/-- C9 counterexample: `execute_backup` reports its result as a bare
boolean and discards the return value of `rollback()`.  Two concrete
runs whose link step fails, differing only in whether the compensating
`rmdir` command would succeed, produce the identical result `false`:
nothing in the reported result distinguishes a rollback failure from an
ordinary rolled-back failure, and the triggering error is not carried
either. -/
theorem c9_counterexample_result_indistinct :
    (BackupManager.execute_backup sysDemo srcDemo tgtDemo envAll oracleNoLinkNoRmdir).2
      = (BackupManager.execute_backup sysDemo srcDemo tgtDemo envAll oracleNoLink).2 ∧
    (BackupManager.execute_backup sysDemo srcDemo tgtDemo envAll oracleNoLinkNoRmdir).2
      = false := by
  decide

/-- C6: validation rejects every request whose source is already a
junction (whatever the other checks say), and a validation failure
leaves the whole system state untouched - `execute_backup` returns the
input state unchanged, so no ledger record is written and the rollback
machinery is never reached.  Validation itself is a pure function of the
filesystem by construction (`validate_paths : FS → ... → Bool × String`). -/
theorem c6_junction_source_rejected_purely :
    (∀ (fs : FS) (env : Env) (src tgt : FPath),
      PathUtils.is_junction fs src = true →
      (BackupManager.validate_paths fs env src tgt).1 = false) ∧
    (∀ (s : Sys) (src tgt : FPath) (env : Env) (o : Oracle),
      (BackupManager.validate_paths s.fs env src tgt).1 = false →
      BackupManager.execute_backup s src tgt env o = (s, false)) := by
  constructor
  · intro fs env src tgt hj
    unfold BackupManager.validate_paths
    by_cases hs : (PathUtils.validate_source_path fs env src).1 = false
    · simp [hs]
    · by_cases ht : (PathUtils.validate_target_path fs env tgt).1 = false
      · simp [hs, ht]
      · simp [hs, ht, hj]
  · intro s src tgt env o hv
    exact execute_backup_invalid hv

/-- C6 witness: a concrete junction source is rejected and the state is
returned unchanged. -/
theorem c6_junction_source_rejected_purely_witness :
    PathUtils.is_junction sysRB.fs srcDemo = true ∧
    (BackupManager.validate_paths sysRB.fs envAll srcDemo tgtDemo).1 = false ∧
    BackupManager.execute_backup sysRB srcDemo tgtDemo envAll oracleAll
      = (sysRB, false) :=
  ⟨by decide,
   c6_junction_source_rejected_purely.1 sysRB.fs envAll srcDemo tgtDemo (by decide),
   c6_junction_source_rejected_purely.2 sysRB srcDemo tgtDemo envAll oracleAll
     (c6_junction_source_rejected_purely.1 sysRB.fs envAll srcDemo tgtDemo (by decide))⟩

/-- C8: after the record is available, the code's compensating rollback
equals the spec's compensating sequence (`specCompensation`): junction
removal first, then the move back, then the original-junction
restoration, each guarded by its recorded flag, all steps always
attempted and the overall flag the conjunction of the step flags - no
early exit on a failed step. -/
theorem c8_compensation_matches_spec (s : Sys) (d : RollbackData) (o : Oracle)
    (hm : s.mem = some d) :
    RollbackManager.rollback s o =
      ({ s with fs := (specCompensation s.fs d o).1 },
       (specCompensation s.fs d o).2) := by
  unfold RollbackManager.rollback
  rw [hm]
  rfl

/-- C8 witness: a concrete mid-rollback state with both progress flags
set, in which the first compensating step (the junction removal) fails;
the move-back step still runs and the combined flag is `false`. -/
theorem c8_compensation_matches_spec_witness :
    sysRB.mem = some dataFlags ∧
    RollbackManager.rollback sysRB oracleNoRmdir =
      ({ sysRB with fs := (specCompensation sysRB.fs dataFlags oracleNoRmdir).1 },
       (specCompensation sysRB.fs dataFlags oracleNoRmdir).2) ∧
    (RollbackManager.removeJunction sysRB.fs dataFlags.source oracleNoRmdir).2 = false ∧
    (specCompensation sysRB.fs dataFlags oracleNoRmdir).2 = false ∧
    (specCompensation sysRB.fs dataFlags oracleNoRmdir).1
      ≠ (RollbackManager.removeJunction sysRB.fs dataFlags.source oracleNoRmdir).1 :=
  ⟨rfl, c8_compensation_matches_spec sysRB dataFlags oracleNoRmdir rfl,
   by decide, by decide, by decide⟩

/-- C9 amended: `execute_backup` reports its outcome as a single
boolean.  The reported result never depends on the outcome of the
compensating rollback commands (`rmdir`, `mklink`, `shutil.move`), and
any failure from the move step onward yields the same result `false`;
a rollback failure is therefore not distinguished and the triggering
error is not surfaced in the result. -/
theorem c9_amended_result_ignores_rollback_outcome :
    (∀ (s : Sys) (src tgt : FPath) (env : Env) (o : Oracle) (a b c : Bool),
      (BackupManager.execute_backup s src tgt env
          { o with rmdirOk := a, mklinkOk := b, shutilMoveOk := c }).2
        = (BackupManager.execute_backup s src tgt env o).2) ∧
    (∀ (s : Sys) (src tgt : FPath) (env : Env) (o : Oracle),
      (BackupManager.move_folder s.fs src tgt o).2 = false →
      (BackupManager.execute_backup s src tgt env o).2 = false) := by
  constructor
  · intro s src tgt env o a b c
    rw [execute_backup_snd_char, execute_backup_snd_char]
    rfl
  · intro s src tgt env o hm
    rw [execute_backup_snd_char]
    simp [hm]

/-- C9 amended witness: the amended statement evaluated on the concrete
failing-link run. -/
theorem c9_amended_result_ignores_rollback_outcome_witness :
    (BackupManager.execute_backup sysDemo srcDemo tgtDemo envAll
        { oracleNoLink with rmdirOk := false, mklinkOk := false, shutilMoveOk := false }).2
      = (BackupManager.execute_backup sysDemo srcDemo tgtDemo envAll oracleNoLink).2 ∧
    (BackupManager.move_folder sysClash.fs srcDemo tgtClash oracleAll).2 = false ∧
    (BackupManager.execute_backup sysClash srcDemo tgtClash envAll oracleAll).2 = false :=
  ⟨c9_amended_result_ignores_rollback_outcome.1 sysDemo srcDemo tgtDemo envAll
     oracleNoLink false false false,
   by decide,
   c9_amended_result_ignores_rollback_outcome.2 sysClash srcDemo tgtClash envAll
     oracleAll (by decide)⟩

/-- C10: when the effective target path already exists (as a directory
or a file) at the time the move step runs, `_move_folder` fails before
issuing any move or copy command: the only filesystem effect is the
creation of the missing target parent directories, the result is
`false` for every command oracle, and the whole `execute_backup`
run fails for that request. -/
theorem c10_existing_target_fails_before_move :
    ∀ (s : Sys) (src tgt : FPath) (env : Env) (o : Oracle),
      (FS.lookup s.fs (BackupManager.moveFolderTarget s.fs src tgt) = some Entry.dir ∨
       FS.lookup s.fs (BackupManager.moveFolderTarget s.fs src tgt) = some Entry.file) →
      BackupManager.moveFolderTarget s.fs src tgt ≠ [] →
      BackupManager.move_folder s.fs src tgt o =
        ((if !pathExists s.fs (parentDir (BackupManager.moveFolderTarget s.fs src tgt))
          then mkdirParents s.fs (parentDir (BackupManager.moveFolderTarget s.fs src tgt))
          else s.fs), false) ∧
      ((BackupManager.validate_paths s.fs env src tgt).1 = true →
        (BackupManager.execute_backup s src tgt env o).2 = false) := by
  intro s src tgt env o hentry hne
  have hiso : (FS.lookup s.fs (BackupManager.moveFolderTarget s.fs src tgt)).isSome
      = true := by
    rcases hentry with h | h <;> rw [h] <;> rfl
  have h0 : FS.lookup
      (if !pathExists s.fs (parentDir (BackupManager.moveFolderTarget s.fs src tgt))
       then mkdirParents s.fs (parentDir (BackupManager.moveFolderTarget s.fs src tgt))
       else s.fs) (BackupManager.moveFolderTarget s.fs src tgt)
      = FS.lookup s.fs (BackupManager.moveFolderTarget s.fs src tgt) := by
    split
    · exact lookup_mkdirParents_isSome hiso
    · rfl
  have hex : pathExists
      (if !pathExists s.fs (parentDir (BackupManager.moveFolderTarget s.fs src tgt))
       then mkdirParents s.fs (parentDir (BackupManager.moveFolderTarget s.fs src tgt))
       else s.fs) (BackupManager.moveFolderTarget s.fs src tgt) = true := by
    rcases hentry with h | h
    · exact pathExists_some_nonjunction hne (h0.trans h) (Or.inl rfl)
    · exact pathExists_some_nonjunction hne (h0.trans h) (Or.inr rfl)
  have hmf : BackupManager.move_folder s.fs src tgt o =
      ((if !pathExists s.fs (parentDir (BackupManager.moveFolderTarget s.fs src tgt))
        then mkdirParents s.fs (parentDir (BackupManager.moveFolderTarget s.fs src tgt))
        else s.fs), false) := by
    unfold BackupManager.move_folder BackupManager.move_folder_core
    rw [if_pos hex]
  refine ⟨hmf, fun _ => ?_⟩
  rw [execute_backup_snd_char]
  simp [hmf]

/-- C10 witness: the concrete world in which `C:/cloud/proj` already
exists inside the existing target directory `C:/cloud`. -/
theorem c10_existing_target_fails_before_move_witness :
    BackupManager.move_folder sysClash.fs srcDemo tgtClash oracleAll =
      ((if !pathExists sysClash.fs
            (parentDir (BackupManager.moveFolderTarget sysClash.fs srcDemo tgtClash))
        then mkdirParents sysClash.fs
            (parentDir (BackupManager.moveFolderTarget sysClash.fs srcDemo tgtClash))
        else sysClash.fs), false) ∧
    (BackupManager.execute_backup sysClash srcDemo tgtClash envAll oracleAll).2
      = false :=
  ⟨(c10_existing_target_fails_before_move sysClash srcDemo tgtClash envAll oracleAll
      (Or.inl (by decide)) (by decide)).1,
   (c10_existing_target_fails_before_move sysClash srcDemo tgtClash envAll oracleAll
      (Or.inl (by decide)) (by decide)).2 (by decide)⟩

/-- C5: the effective target is computed exactly as the spec formula
says (`effectiveTargetSpec`), in `execute_backup` and again, with the
same value, inside `_move_folder`; the rollback record's `target` field
holds its canonicalized (`resolve`d) form, which is the identical value
for canonical paths; and every successful run leaves the source as a
junction pointing at that same effective target - the value used by the
move, link and verify steps. -/
theorem c5_effective_target_consistent :
    (∀ (fs : FS) (src tgt : FPath),
      BackupManager.actualTarget fs src tgt = effectiveTargetSpec fs src tgt) ∧
    (∀ (fs : FS) (src tgt : FPath),
      BackupManager.moveFolderTarget fs src tgt = effectiveTargetSpec fs src tgt) ∧
    (∀ (s : Sys) (src tgt : FPath),
      ((RollbackManager.create_rollback_point s src
          (BackupManager.actualTarget s.fs src tgt)).1.ledger).map RollbackData.target
        = some (resolve s.fs (effectiveTargetSpec s.fs src tgt))) ∧
    (∀ (s : Sys) (src tgt : FPath) (env : Env) (o : Oracle),
      (BackupManager.execute_backup s src tgt env o).2 = true →
      FS.lookup (BackupManager.execute_backup s src tgt env o).1.fs src
        = some (Entry.junction (effectiveTargetSpec s.fs src tgt))) := by
  refine ⟨fun _ _ _ => rfl, fun _ _ _ => rfl, fun _ _ _ => rfl, ?_⟩
  intro s src tgt env o hsucc
  have hchar := execute_backup_snd_char s src tgt env o
  rw [hsucc] at hchar
  have hall := hchar.symm
  simp only [Bool.and_eq_true] at hall
  obtain ⟨hv, hm, hj, hver⟩ := hall
  rw [execute_backup_success_state hv hm hj hver]
  show FS.lookup (BackupManager.create_junction
      (BackupManager.move_folder s.fs src tgt o).1
      src (BackupManager.actualTarget s.fs src tgt) o).1 src = _
  rw [create_junction_fst_of_ok (create_junction_ok_of_snd hj)]
  exact FS.lookup_set_self _ _ _

/-- C5 witness: the consistency statement evaluated on the concrete
successful demo run. -/
theorem c5_effective_target_consistent_witness :
    (BackupManager.execute_backup sysDemo srcDemo tgtDemo envAll oracleAll).2 = true ∧
    FS.lookup (BackupManager.execute_backup sysDemo srcDemo tgtDemo envAll oracleAll).1.fs
        srcDemo
      = some (Entry.junction (effectiveTargetSpec sysDemo.fs srcDemo tgtDemo)) :=
  ⟨by decide,
   c5_effective_target_consistent.2.2.2 sysDemo srcDemo tgtDemo envAll oracleAll
     (by decide)⟩

/-- C3 counterexample: a valid request (the target directory exists with
contents, which validation deliberately accepts as a merge) whose move
step fails because the effective target `C:/cloud/proj` already exists.
The automatic rollback runs, the source is left untouched, but the
effective target still exists afterwards - refuting the claim that after
a failed move the effective target never exists. -/
theorem c3_counterexample_preexisting_target :
    (BackupManager.validate_paths sysClash.fs envAll srcDemo tgtClash).1 = true ∧
    (BackupManager.move_folder sysClash.fs srcDemo tgtClash oracleAll).2 = false ∧
    (BackupManager.execute_backup sysClash srcDemo tgtClash envAll oracleAll).2
      = false ∧
    pathExists (BackupManager.execute_backup sysClash srcDemo tgtClash envAll
        oracleAll).1.fs (effectiveTargetSpec sysClash.fs srcDemo tgtClash) = true := by
  decide

/-- C3 amended: for every valid request whose move step fails - with the
source and the effective target not nested inside one another, and no
stale junction entry sitting at the effective target - the automatic
rollback performed by `execute_backup` leaves the source subtree exactly
as it was before the attempt (every path at or below the source keeps
its exact entry, so the source is the same directory with the same
contents and not a junction), and the effective target exists afterwards
only if it already existed before the attempt or the robocopy fallback
had copied the content across before the failure. -/
theorem c3_amended_move_failure_preserves_source :
    ∀ (s : Sys) (src tgt : FPath) (env : Env) (o : Oracle),
      (BackupManager.validate_paths s.fs env src tgt).1 = true →
      isLinkEntry s.fs (BackupManager.moveFolderTarget s.fs src tgt) = false →
      ¬ src <+: BackupManager.moveFolderTarget s.fs src tgt →
      ¬ BackupManager.moveFolderTarget s.fs src tgt <+: src →
      (BackupManager.move_folder s.fs src tgt o).2 = false →
      (BackupManager.execute_backup s src tgt env o).2 = false ∧
      (∀ p, src <+: p →
        FS.lookup (BackupManager.execute_backup s src tgt env o).1.fs p
          = FS.lookup s.fs p) ∧
      (pathExists (BackupManager.execute_backup s src tgt env o).1.fs
          (BackupManager.moveFolderTarget s.fs src tgt) = true →
        pathExists s.fs (BackupManager.moveFolderTarget s.fs src tgt) = true ∨
          o.robocopyCopied = true) := by
  intro s src tgt env o hv htnj hns hsn hfail
  obtain ⟨hsv, htv, hj⟩ := validate_paths_true hv
  obtain ⟨hse, hsex, _⟩ := validate_source_path_true hsv
  obtain ⟨hte, _⟩ := validate_target_path_true htv
  have hsne : src ≠ [] := by simpa using hse
  have htgne : tgt ≠ [] := by simpa using hte
  have htne : BackupManager.moveFolderTarget s.fs src tgt ≠ [] :=
    moveFolderTarget_ne_nil htgne
  have hsnj : isLinkEntry s.fs src = false := isLinkEntry_false_of_valid hse hsex hj
  have hparpre : ¬ src <+: parentDir (BackupManager.moveFolderTarget s.fs src tgt) :=
    fun hh => hns (hh.trans (List.dropLast_prefix _))
  set F0 : FS :=
    (if !pathExists s.fs (parentDir (BackupManager.moveFolderTarget s.fs src tgt))
     then mkdirParents s.fs (parentDir (BackupManager.moveFolderTarget s.fs src tgt))
     else s.fs) with hF0
  have hframe0 : ∀ p, src <+: p → FS.lookup F0 p = FS.lookup s.fs p := by
    intro p hp
    rw [hF0]
    split
    · exact lookup_mkdirParents_not_under hp hparpre
    · rfl
  have hlen0 : (parentDir (BackupManager.moveFolderTarget s.fs src tgt)).length
      < (BackupManager.moveFolderTarget s.fs src tgt).length := by
    have h1 : (BackupManager.moveFolderTarget s.fs src tgt).length ≠ 0 :=
      fun hh => htne (List.eq_nil_of_length_eq_zero hh)
    unfold parentDir
    rw [List.length_dropLast]
    omega
  have h0 : FS.lookup F0 (BackupManager.moveFolderTarget s.fs src tgt)
      = FS.lookup s.fs (BackupManager.moveFolderTarget s.fs src tgt) := by
    rw [hF0]
    split
    · exact lookup_mkdirParents_longer hlen0
    · rfl
  have hlink0 : isLinkEntry F0 (BackupManager.moveFolderTarget s.fs src tgt)
      = false := by
    unfold isLinkEntry at htnj ⊢
    rw [h0]
    exact htnj
  obtain ⟨es, hesS, hesd⟩ := lookup_of_exists_nonjunction hsne hsex hsnj
  have hes0 : FS.lookup F0 src = some es := by
    rw [hframe0 src (List.prefix_refl src)]
    exact hesS
  have hfailc : (BackupManager.move_folder_core F0 src
      (BackupManager.moveFolderTarget s.fs src tgt) o).2 = false := by
    rw [hF0]
    exact hfail
  obtain ⟨hframeC, htgtC⟩ :=
    move_folder_core_fail_frame hsne htne hes0 hesd hlink0 hns hsn hfailc
  have hpy : RollbackManager.pyIsJunction s.fs src = false := by
    unfold RollbackManager.pyIsJunction
    simp [hsnj]
  set S2 : Sys :=
    { (RollbackManager.create_rollback_point s src
         (BackupManager.actualTarget s.fs src tgt)).1 with
      fs := (BackupManager.move_folder s.fs src tgt o).1 } with hS2
  have hrb : RollbackManager.rollback S2 o = (S2, true) :=
    rollback_of_inactive_mem rfl rfl rfl hpy
  have hrun : BackupManager.execute_backup s src tgt env o = (S2, false) := by
    rw [execute_backup_of_moveFail hv hfail, ← hS2, hrb]
  refine ⟨by rw [hrun], ?_, ?_⟩
  · intro p hp
    rw [hrun]
    exact (hframeC p hp).trans (hframe0 p hp)
  · intro hpe
    rw [hrun] at hpe
    rcases htgtC hpe with hleft | hright
    · obtain ⟨e, he, hed⟩ := lookup_of_exists_nonjunction htne hleft hlink0
      exact Or.inl (pathExists_some_nonjunction htne (h0.symm.trans he) hed)
    · exact Or.inr hright

/-- C3 amended witness: the amended statement evaluated on the concrete
clash world, where the move step fails because the effective target
already exists. -/
theorem c3_amended_move_failure_preserves_source_witness :
    (BackupManager.execute_backup sysClash srcDemo tgtClash envAll oracleAll).2
      = false ∧
    FS.lookup (BackupManager.execute_backup sysClash srcDemo tgtClash envAll
        oracleAll).1.fs srcDemo = FS.lookup sysClash.fs srcDemo ∧
    (pathExists (BackupManager.execute_backup sysClash srcDemo tgtClash envAll
        oracleAll).1.fs (BackupManager.moveFolderTarget sysClash.fs srcDemo tgtClash)
        = true →
      pathExists sysClash.fs (BackupManager.moveFolderTarget sysClash.fs srcDemo
        tgtClash) = true ∨ oracleAll.robocopyCopied = true) :=
  ⟨(c3_amended_move_failure_preserves_source sysClash srcDemo tgtClash envAll
      oracleAll (by decide) (by decide) (by decide) (by decide) (by decide)).1,
   (c3_amended_move_failure_preserves_source sysClash srcDemo tgtClash envAll
      oracleAll (by decide) (by decide) (by decide) (by decide) (by decide)).2.1
     srcDemo (List.prefix_refl srcDemo),
   (c3_amended_move_failure_preserves_source sysClash srcDemo tgtClash envAll
      oracleAll (by decide) (by decide) (by decide) (by decide) (by decide)).2.2⟩

end OneDriveBackupTool
